import Mathlib

/-!
Verification of the signal-generation and trade-lifecycle engine of the
riley-bot binary-options trading bot.

The Python sources are shallowly embedded: each `def` below translates one
function (or one cohesive block) of the source, keeping names where Lean
allows them.  Python floats are modelled as exact rationals (`ℚ`); all the
properties checked here are order/equality properties of the exact decimal
constants appearing in the source.  Python dictionaries keyed by strings
with a fixed small set of values ("CALL"/"PUT"/"HOLD"/"neutral",
"support"/"resistance", ...) are modelled as inductive types; dictionaries
used as records are modelled as structures; the empty dictionary returned
by guard clauses is modelled as `Option.none`.
-/

/-- Trade / signal direction tags used throughout the source
(strings "CALL", "PUT", "HOLD", "neutral" in Python). -/
inductive Direction where
  | CALL
  | PUT
  | HOLD
  | neutral
deriving DecidableEq

/-- One OHLCV candle, as produced by `PocketOptionClient.subscribe_candles`
(dict with keys asset, timeframe, timestamp, open, high, low, close, volume).
The Python key "open" is a Lean keyword, hence the field name `open_`. -/
structure Candle where
  asset : String
  timeframe : Nat
  timestamp : Nat
  open_ : ℚ
  high : ℚ
  low : ℚ
  close : ℚ
  volume : Nat
deriving DecidableEq

/- ===================== src/patterns/candlestick.py ===================== -/

/-- A raw pattern hit as built inside `CandlestickAnalyzer._detect_patterns`
(dict with keys name, type, signal, strength; "type" is spelled `ptype`). -/
structure PatternHit where
  name : String
  ptype : String
  signal : Direction
  strength : ℚ
deriving DecidableEq

/-- An entry of the list returned by `CandlestickAnalyzer.analyze_candles`
(dict with keys pattern, type, signal, strength, candle_index, timestamp, price). -/
structure PatternEntry where
  pattern : String
  ptype : String
  signal : Direction
  strength : ℚ
  candle_index : Nat
  timestamp : Nat
  price : ℚ
deriving DecidableEq

/-- Models `CandlestickAnalyzer._is_bullish`: close > open. -/
def is_bullish (c : Candle) : Prop := c.close > c.open_

/-- Models `CandlestickAnalyzer._is_bearish`: close < open. -/
def is_bearish (c : Candle) : Prop := c.close < c.open_

instance (c : Candle) : Decidable (is_bullish c) :=
  inferInstanceAs (Decidable (c.close > c.open_))

instance (c : Candle) : Decidable (is_bearish c) :=
  inferInstanceAs (Decidable (c.close < c.open_))

/-- Models `CandlestickAnalyzer._detect_patterns`: detects the Bullish Engulfing and
Doji examples of the source.  `prev2` is accepted and unused, as in the source. -/
def detect_patterns (current : Candle) (prev : Option Candle) (prev2 : Option Candle) :
    List PatternHit :=
  let engulfing : List PatternHit :=
    match prev with
    | some p =>
      if is_bearish p ∧ is_bullish current ∧ current.close > p.open_ ∧ current.open_ < p.close
      then [{ name := "Bullish Engulfing", ptype := "reversal",
              signal := Direction.CALL, strength := 9/10 }]
      else []
    | none => []
  let body_size := |current.close - current.open_|
  let range_size := current.high - current.low
  let doji : List PatternHit :=
    if body_size < (1/10) * range_size ∧ range_size > 1/10000
    then [{ name := "Doji", ptype := "indecision",
            signal := Direction.neutral, strength := 1/2 }]
    else []
  engulfing ++ doji

/-- Models `CandlestickAnalyzer.analyze_candles`: below 3 candles returns `[]`;
otherwise scans indices `0 ≤ i < len - 2`, breaking after `i = 10`
(so indices `0 .. min (len-3) 10` are processed, `min (len-2) 11` of them). -/
def analyze_candles (candles : List Candle) : List PatternEntry :=
  if candles.length < 3 then []
  else
    (List.range (min (candles.length - 2) 11)).flatMap fun i =>
      match candles[i]? with
      | none => []
      | some current =>
        (detect_patterns current candles[i+1]? candles[i+2]?).map fun p =>
          { pattern := p.name, ptype := p.ptype, signal := p.signal,
            strength := p.strength, candle_index := i,
            timestamp := current.timestamp, price := current.close }

/- ===================== src/patterns/indicators.py ====================== -/

/-- RSI signal tag: "overbought" / "oversold" / "neutral". -/
inductive RsiSig where
  | overbought
  | oversold
  | neutral
deriving DecidableEq

/-- MACD trend tag: "bullish" / "bearish" / "neutral". -/
inductive Trend where
  | bullish
  | bearish
  | neutral
deriving DecidableEq

/-- Result of `TechnicalIndicators.calculate_rsi` (keys value, signal). -/
structure RsiInd where
  value : ℚ
  signal : RsiSig
deriving DecidableEq

/-- Result of `TechnicalIndicators.calculate_macd` in the basic
(TA-unavailable) branch (key trend). -/
structure MacdInd where
  trend : Trend
deriving DecidableEq

/-- Result of `TechnicalIndicators.calculate_bollinger_bands` in the basic
branch (key position). -/
structure BollInd where
  position : String
deriving DecidableEq

/-- Result of `TechnicalIndicators.calculate_stochastic` in the basic
branch (key signal). -/
structure StochInd where
  signal : String
deriving DecidableEq

/-- Result of `TechnicalIndicators.calculate_atr` in the basic branch
(key value). -/
structure AtrInd where
  value : ℚ
deriving DecidableEq

/-- The indicator mapping built by `TechnicalIndicators.calculate_all`
(dict with the nine fixed keys below). -/
structure Indicators where
  rsi : RsiInd
  sma_10 : Option ℚ
  sma_20 : Option ℚ
  ema_10 : Option ℚ
  ema_20 : Option ℚ
  macd : MacdInd
  bollinger : BollInd
  stochastic : StochInd
  atr : AtrInd
deriving DecidableEq

/-- Models `TechnicalIndicators.calculate_sma`: mean of the last `period` closes,
`None` when fewer closes are available. -/
def calculate_sma (closes : List ℚ) (period : Nat) : Option ℚ :=
  if closes.length < period then none
  else some (((closes.drop (closes.length - period)).sum) / period)

/-- Models `TechnicalIndicators.calculate_ema`: exponential average with
`alpha = 2/(period+1)`, seeded with the first close, `None` when fewer
closes than `period` are available. -/
def calculate_ema (closes : List ℚ) (period : Nat) : Option ℚ :=
  if closes.length < period then none
  else
    match closes with
    | [] => none
    | c :: rest =>
      let alpha : ℚ := 2 / (period + 1)
      some (rest.foldl (fun ema close => alpha * close + (1 - alpha) * ema) c)

/-- Models `TechnicalIndicators.calculate_rsi`, basic branch (the `ta` library is
absent): fixed neutral value. -/
def calculate_rsi (closes : List ℚ) (period : Nat) : RsiInd :=
  { value := 50, signal := RsiSig.neutral }

/-- Models `TechnicalIndicators.calculate_macd`, basic branch. -/
def calculate_macd (closes : List ℚ) : MacdInd :=
  { trend := Trend.neutral }

/-- Models `TechnicalIndicators.calculate_bollinger_bands`, basic branch. -/
def calculate_bollinger_bands (closes : List ℚ) : BollInd :=
  { position := "mid" }

/-- Models `TechnicalIndicators.calculate_stochastic`, basic branch. -/
def calculate_stochastic (highs lows closes : List ℚ) : StochInd :=
  { signal := "neutral" }

/-- Models `TechnicalIndicators.calculate_atr`, basic branch. -/
def calculate_atr (highs lows closes : List ℚ) : AtrInd :=
  { value := 0 }

/-- Models `TechnicalIndicators.calculate_all`: below 20 candles returns the empty
dict (modelled `none`); otherwise reverses the newest-first window into
chronological order and computes the fixed indicator set. -/
def calculate_all (candles : List Candle) : Option Indicators :=
  if candles.length < 20 then none
  else
    let closes := candles.reverse.map (·.close)
    let highs := candles.reverse.map (·.high)
    let lows := candles.reverse.map (·.low)
    some
      { rsi := calculate_rsi closes 14,
        sma_10 := calculate_sma closes 10,
        sma_20 := calculate_sma closes 20,
        ema_10 := calculate_ema closes 10,
        ema_20 := calculate_ema closes 20,
        macd := calculate_macd closes,
        bollinger := calculate_bollinger_bands closes,
        stochastic := calculate_stochastic highs lows closes,
        atr := calculate_atr highs lows closes }

/- ======================= src/patterns/levels.py ======================== -/

/-- Level type tag: "support" / "resistance". -/
inductive LType where
  | support
  | resistance
deriving DecidableEq

/-- A swing point appended to `potential_levels` inside
`LevelAnalyzer.find_support_resistance` (keys price, type, index). -/
structure LevelPoint where
  price : ℚ
  ltype : LType
  index : Nat
deriving DecidableEq

/-- A merged level as built in `find_support_resistance`
(keys price, type, touches, strength, and later distance; `distance` is
filled in at step 3 of the source and is 0 until then). -/
structure Level where
  price : ℚ
  ltype : LType
  touches : Nat
  strength : ℚ
  distance : ℚ
deriving DecidableEq

/-- The dict returned by `find_support_resistance` (keys support, resistance). -/
structure SRResult where
  support : List Level
  resistance : List Level
deriving DecidableEq

/-- Step 1 of `find_support_resistance`: for every index `i` with
`sensitivity ≤ i < len - sensitivity`, appends a resistance point when
`highs[i]` dominates its `sensitivity` neighbours on both sides, and a
support point when `lows[i]` is dominated by them. -/
def swing_points (candles : List Candle) (sensitivity : Nat) : List LevelPoint :=
  let highs := candles.map (·.high)
  let lows := candles.map (·.low)
  (List.range' sensitivity (candles.length - sensitivity * 2)).flatMap fun i =>
    (if ∀ j ∈ List.range' 1 sensitivity,
        highs.getD (i - j) 0 ≤ highs.getD i 0 ∧ highs.getD (i + j) 0 ≤ highs.getD i 0
     then [{ price := highs.getD i 0, ltype := LType.resistance, index := i }]
     else []) ++
    (if ∀ j ∈ List.range' 1 sensitivity,
        lows.getD i 0 ≤ lows.getD (i - j) 0 ∧ lows.getD i 0 ≤ lows.getD (i + j) 0
     then [{ price := lows.getD i 0, ltype := LType.support, index := i }]
     else [])

/-- The sort key of `potential_levels.sort(key=lambda x: x["price"])`. -/
def levelLE (u v : LevelPoint) : Prop := u.price ≤ v.price

instance : DecidableRel levelLE := fun u v => inferInstanceAs (Decidable (u.price ≤ v.price))

/-- The sort key of `nearest_support.sort(key=lambda x: x["distance"])`. -/
def distLE (u v : Level) : Prop := u.distance ≤ v.distance

instance : DecidableRel distLE := fun u v => inferInstanceAs (Decidable (u.distance ≤ v.distance))

/-- The clustering loop of step 2 of `find_support_resistance`.  `last` is
`current_cluster[-1]` and `last :: cur` is the current cluster, newest
member first (the source keeps it oldest-first; clusters are reversed back
on finalization).  A new point joins the cluster exactly when its price is
within `tolStar` of the previous point's price, otherwise the cluster is
finalized and a fresh one starts. -/
def clusterLoop (tolStar : ℚ) (last : LevelPoint) (cur : List LevelPoint) :
    List LevelPoint → List (List LevelPoint)
  | [] => [(last :: cur).reverse]
  | x :: rest =>
    if |x.price - last.price| < tolStar then
      clusterLoop tolStar x (last :: cur) rest
    else
      (last :: cur).reverse :: clusterLoop tolStar x [] rest

/-- Step 2 of `find_support_resistance`: greedy clustering of the
price-sorted swing points; `tolStar` is `self.tolerance * current_price`. -/
def buildClusters (tolStar : ℚ) : List LevelPoint → List (List LevelPoint)
  | [] => []
  | x :: rest => clusterLoop tolStar x [] rest

/-- The majority vote `max(set(types), key=count)` assigning a cluster its
type.  CPython iterates the set in unspecified (hash) order, so the vote is
only determined when the counts differ; the model resolves the
never-exercised tie towards resistance. -/
def clusterType (c : List LevelPoint) : LType :=
  let res := (c.filter fun p => p.ltype == LType.resistance).length
  let sup := (c.filter fun p => p.ltype == LType.support).length
  if res < sup then LType.support else LType.resistance

/-- The cluster-finalization block of step 2: mean price, majority type,
touch count, and `strength = min 1 (count / sensitivity)`.  Clusters are
always nonempty, so the mean's division is never by zero. -/
def finalizeCluster (sensitivity : Nat) (c : List LevelPoint) : Level :=
  { price := (c.map (·.price)).sum / c.length,
    ltype := clusterType c,
    touches := c.length,
    strength := min 1 ((c.length : ℚ) / sensitivity),
    distance := 0 }

/-- Models `LevelAnalyzer.find_support_resistance` with the analyzer's
`self.tolerance` passed explicitly (constructor default 0.0005).  Below
`sensitivity * 2` candles it returns empty support and resistance lists;
otherwise: swing detection, stable sort by price, tolerance clustering,
finalization, then the `count` nearest clusters strictly below the current
price (support) and strictly above it (resistance), sorted by distance. -/
def find_support_resistance (tolerance : ℚ) (candles : List Candle)
    (sensitivity : Nat := 3) (count : Nat := 3) : SRResult :=
  if candles.length < sensitivity * 2 then { support := [], resistance := [] }
  else
    let current_price := match candles with | [] => 0 | c :: _ => c.close
    let potential_levels := swing_points candles sensitivity
    let sorted_levels := List.insertionSort levelLE potential_levels
    let merged_levels :=
      (buildClusters (tolerance * current_price) sorted_levels).map (finalizeCluster sensitivity)
    let with_distance := merged_levels.map fun lv => { lv with distance := |lv.price - current_price| }
    let nearest_support := with_distance.filter fun lv =>
      lv.ltype == LType.support && decide (lv.price < current_price)
    let nearest_resistance := with_distance.filter fun lv =>
      lv.ltype == LType.resistance && decide (lv.price > current_price)
    { support := (List.insertionSort distLE nearest_support).take count,
      resistance := (List.insertionSort distLE nearest_resistance).take count }

/- ====================== src/ml/knowledge_learner.py ==================== -/

/-- A learned-concept record as returned by
`KnowledgeLearner.get_relevant_knowledge` (keys keyword, category, content,
summary, relevance).  It is an opaque input to the agent: `generate_signal`
accepts it and never reads it. -/
structure KnowledgeItem where
  keyword : String
  category : String
  content : String
  summary : String
  relevance : ℚ
deriving DecidableEq

/- =========================== src/ml/agent.py =========================== -/

/-- The dict returned by `TradingAgent._get_pattern_signal` (keys signal,
strength). -/
structure PatSig where
  signal : Direction
  strength : ℚ
deriving DecidableEq

/-- The dict returned by `TradingAgent._get_indicator_signal` (keys
direction, strength). -/
structure IndSig where
  direction : Direction
  strength : ℚ
deriving DecidableEq

/-- The decision dict returned by `TradingAgent.generate_signal` (keys
direction, confidence, expiration; the free-text "reasoning" key is not
modelled). -/
structure Signal where
  direction : Direction
  confidence : ℚ
  expiration : Nat
deriving DecidableEq

/-- Models `TradingAgent._get_pattern_signal`: signal and strength of the first
(most recent) detected pattern, neutral with strength 0.5 when none. -/
def get_pattern_signal (patterns : List PatternEntry) : PatSig :=
  match patterns with
  | [] => { signal := Direction.neutral, strength := 1/2 }
  | p :: _ => { signal := p.signal, strength := p.strength }

/-- Models `TradingAgent._get_indicator_signal`: majority rule over the RSI signal
(weight 1) and the MACD trend (weight 1.5).  An absent indicator mapping
(`none`, the empty dict) contributes to neither side, exactly as the
source's `indicators.get(..., {}).get(...)` chains. -/
def get_indicator_signal (indicators : Option Indicators) : IndSig :=
  let rsiSig : Option RsiSig := indicators.map fun ind => ind.rsi.signal
  let macdTrend : Option Trend := indicators.map fun ind => ind.macd.trend
  let bullish : ℚ :=
    (if rsiSig = some RsiSig.oversold then 1 else 0) +
    (if macdTrend = some Trend.bullish then 3/2 else 0)
  let bearish : ℚ :=
    (if rsiSig = some RsiSig.overbought then 1 else 0) +
    (if macdTrend = some Trend.bearish then 3/2 else 0)
  if bullish > bearish then { direction := Direction.CALL, strength := min (4/5) (bullish / 2) }
  else if bearish > bullish then { direction := Direction.PUT, strength := min (4/5) (bearish / 2) }
  else { direction := Direction.neutral, strength := 1/2 }

/-- Models `TradingAgent.get_trade_expiration`: base expiration from volatility
(lower volatility, longer base) scaled by pattern strength (stronger
pattern, shorter multiplier). -/
def get_trade_expiration (volatility : ℚ) (pattern_strength : ℚ) : Nat :=
  let base_exp : Nat :=
    if volatility > 2/1000 then 60
    else if volatility > 1/1000 then 120
    else 300
  if pattern_strength > 4/5 then base_exp
  else if pattern_strength > 3/5 then base_exp * 2
  else base_exp * 3

/-- The `call_score` accumulation of `TradingAgent.generate_signal`:
pattern strength signed by whether the pattern signal is CALL, plus
indicator strength signed by whether the indicator direction is CALL. -/
def combined_call_score (patterns : List PatternEntry) (indicators : Option Indicators) : ℚ :=
  let ps := get_pattern_signal patterns
  let isig := get_indicator_signal indicators
  ps.strength * (if ps.signal = Direction.CALL then 1 else -1) +
  isig.strength * (if isig.direction = Direction.CALL then 1 else -1)

/-- Models `TradingAgent.generate_signal`: normalizes `|call_score| / 2` into
`[0.5, 0.9]`; below 0.65 the decision is HOLD with confidence 0.5,
otherwise CALL when the score is positive, PUT otherwise.  The source also
receives `candles`, `levels` and `knowledge` and reads none of them. -/
def generate_signal (candles : List Candle) (patterns : List PatternEntry)
    (indicators : Option Indicators) (levels : SRResult)
    (knowledge : List KnowledgeItem) : Signal :=
  let call_score := combined_call_score patterns indicators
  let final_confidence := max (1/2) (min (9/10) (|call_score| / 2))
  if final_confidence < 65/100 then
    { direction := Direction.HOLD, confidence := 1/2, expiration := 0 }
  else
    { direction := if call_score > 0 then Direction.CALL else Direction.PUT,
      confidence := final_confidence,
      expiration := get_trade_expiration (1/1000) (get_pattern_signal patterns).strength }

/-- Models `TradingAgent.get_trade_amount`: maps confidence into a tiered
percentage of `base_pct` (default 0.02), multiplies by the balance, then
applies `max(1, min(amount, balance * 0.05))`. -/
def get_trade_amount (balance : ℚ) (confidence : ℚ) (base_pct : ℚ := 2/100) : ℚ :=
  let pct :=
    if confidence < 6/10 then base_pct * (1/2)
    else if confidence < 7/10 then base_pct
    else if confidence < 8/10 then base_pct * (3/2)
    else base_pct * 2
  let amount := balance * pct
  max 1 (min amount (balance * (5/100)))

/- ======================== src/api/pocket_option.py ===================== -/

/-- The mutable state of `PocketOptionClient` that the core reads:
simulation flag, demo flag, connection flag and cached balance. -/
structure ClientState where
  simulation_mode : Bool
  demo : Bool
  connected : Bool
  balance : ℚ
deriving DecidableEq

/-- Models `PocketOptionClient.connect`.  In simulation mode it always succeeds
(balance 10000 when demo, else 0).  In live mode the venue call is modelled
by `venueBalance`: `some b` is a successful connection reporting balance
`b`; `none` is a raised venue error, which the source catches, setting
`connected = False` and returning `False` (never propagating the
exception).  Returns the new client state and the boolean result. -/
def connect (c : ClientState) (venueBalance : Option ℚ) : ClientState × Bool :=
  if c.simulation_mode then
    ({ c with connected := true, balance := if c.demo then 10000 else 0 }, true)
  else
    match venueBalance with
    | some b => ({ c with connected := true, balance := b }, true)
    | none => ({ c with connected := false }, false)

/-- The asset list of `PocketOptionClient.assets`. -/
def client_assets : List String :=
  ["EURUSD_otc", "GBPUSD_otc", "USDJPY_otc", "AUDUSD_otc",
   "EURJPY_otc", "GBPJPY_otc", "EURGBP_otc", "USDCAD_otc"]

/- ========================== src/trading_bot.py ========================= -/

/-- The observable state of an asyncio task held in `TradingBot.loops`. -/
structure TaskState where
  done : Bool
deriving DecidableEq

/-- A freshly created, still-running task. -/
def newTask : TaskState := { done := false }

/-- A pending-trade record stored in `TradingBot.pending_trades`
(keys asset, amount, direction, created_at, status). -/
structure PendingTrade where
  asset : String
  amount : ℚ
  direction : Direction
  created_at : ℚ
  status : String
deriving DecidableEq

/-- A settled record appended to `TradingBot.trade_history`: the pending
dict merged with outcome and profit (`{**trade, "outcome": .., "profit": ..}`). -/
structure TradeRecord where
  asset : String
  amount : ℚ
  direction : Direction
  created_at : ℚ
  status : String
  outcome : String
  profit : ℚ
deriving DecidableEq

/-- The arguments of a `client.place_trade` call issued by
`TradingBot._execute_trade`. -/
structure OrderRequest where
  asset : String
  amount : ℚ
  direction : Direction
  expiration : Nat
deriving DecidableEq

/-- The shared mutable state of `TradingBot` touched by the lifecycle logic
under verification.  `pending_trades` is the insertion-ordered dict
`trade_id -> trade`; `loops` is the task registry; `balance` is
`self.client.balance`. -/
@[ext]
structure BotState where
  is_running : Bool
  is_trading : Bool
  connected : Bool
  balance : ℚ
  min_confidence : ℚ
  pending_trades : List (String × PendingTrade)
  trade_history : List TradeRecord
  loops : List (String × TaskState)
deriving DecidableEq

/-- Insertion into a string-keyed insertion-ordered dict: an existing key
is overwritten in place, a new key is appended. -/
def dictInsertTask (m : List (String × TaskState)) (k : String) (v : TaskState) :
    List (String × TaskState) :=
  if m.any fun p => p.1 == k then
    m.map fun p => if p.1 == k then (k, v) else p
  else m ++ [(k, v)]

/-- Insertion into the pending-trades dict (same overwrite-or-append
semantics as Python dict assignment). -/
def dictInsertTrade (m : List (String × PendingTrade)) (k : String) (v : PendingTrade) :
    List (String × PendingTrade) :=
  if m.any fun p => p.1 == k then
    m.map fun p => if p.1 == k then (k, v) else p
  else m ++ [(k, v)]

/-- Models `TradingBot.start`: a no-op when already running, otherwise sets the
running flag and registers the four background tasks in `self.loops`. -/
def start (s : BotState) : BotState :=
  if s.is_running then s
  else
    { s with
      is_running := true,
      loops :=
        dictInsertTask
          (dictInsertTask
            (dictInsertTask
              (dictInsertTask s.loops "main" newTask)
              "tournament" newTask)
            "executor" newTask)
          "learner" newTask }

/-- Models `TradingBot.stop`: a no-op when `is_running` is false; otherwise clears
the running flag, calls `cancel()` on every registered not-yet-done task
and empties `self.loops`.  The second component lists the names of the
tasks on which `cancel()` was called. -/
def stop (s : BotState) : BotState × List String :=
  if !s.is_running then (s, [])
  else
    ({ s with is_running := false, loops := [] },
     (s.loops.filter fun p => !p.2.done).map Prod.fst)

/-- Models `TradingBot.set_min_confidence`: clamps the requested threshold to
`[0.5, 0.95]`. -/
def set_min_confidence (s : BotState) (confidence : ℚ) : BotState :=
  { s with min_confidence := max (1/2) (min (95/100) confidence) }

/-- The startup phase of `TradingBot._main_loop`: runs `client.connect`;
on failure sets `is_running` to false and returns without registering any
candle-feed task; on success registers one `candles_<asset>` subscription
task per client asset. -/
def main_loop_startup (s : BotState) (c : ClientState) (venueBalance : Option ℚ) :
    BotState × ClientState :=
  let res := connect c venueBalance
  if !res.2 then ({ s with is_running := false }, res.1)
  else
    ({ s with
        loops := client_assets.foldl
          (fun m a => dictInsertTask m (String.append "candles_" a) newTask) s.loops },
     res.1)

/-- The confidence gate of `TradingBot._on_new_candle`:
`signal["direction"] not in ["HOLD", "neutral"] and signal["confidence"] >= self.min_confidence`. -/
def tradeGate (signal : Signal) (min_confidence : ℚ) : Bool :=
  (signal.direction != Direction.HOLD && signal.direction != Direction.neutral) &&
  decide (signal.confidence ≥ min_confidence)

/-- Models `TradingBot._execute_trade`: sizes the trade from the balance and the
signal confidence, skips (logging only) when the amount is below 1, and
otherwise calls `client.place_trade`.  `placeResult` models the venue's
answer: `some tid` is acceptance with trade id `tid` (the trade is then
registered in the pending dict with `created_at = now` and persisted);
`none` is a failed placement, which leaves the pending dict unchanged.
Returns the new state and the order request passed to `place_trade`
(`none` when no call was made). -/
def execute_trade (s : BotState) (asset : String) (signal : Signal)
    (placeResult : Option String) (now : ℚ) : BotState × Option OrderRequest :=
  let trade_amount := get_trade_amount s.balance signal.confidence
  if trade_amount < 1 then (s, none)
  else
    let req : OrderRequest :=
      { asset := asset, amount := trade_amount,
        direction := signal.direction, expiration := signal.expiration }
    match placeResult with
    | some tid =>
      ({ s with
          pending_trades := dictInsertTrade s.pending_trades tid
            { asset := asset, amount := trade_amount, direction := signal.direction,
              created_at := now, status := "pending" } }, some req)
    | none => (s, some req)

/-- The decision tail of `TradingBot._on_new_candle` (steps 3 of the
source): when trading is enabled and the generated signal clears the gate,
executes the trade; otherwise the state is untouched and `place_trade` is
not called. -/
def on_candle_decision (s : BotState) (asset : String) (signal : Signal)
    (placeResult : Option String) (now : ℚ) : BotState × Option OrderRequest :=
  if s.is_trading && tradeGate signal s.min_confidence then
    execute_trade s asset signal placeResult now
  else (s, none)

/-- The expiry test of `TradingBot._resolve_trades`:
`time.time() - trade["created_at"] > 5`. -/
def isExpired (now : ℚ) (t : PendingTrade) : Bool :=
  decide (now - t.created_at > 5)

/-- The settlement record built by `_resolve_trades` for one expired trade:
the outcome oracle models `random.choice(["win", "loss"])` (true = win);
profit is `amount * 0.85` on a win and `-amount` on a loss. -/
def settleTrade (outcomes : String → Bool) (tid : String) (t : PendingTrade) : TradeRecord :=
  let win := outcomes tid
  { asset := t.asset, amount := t.amount, direction := t.direction,
    created_at := t.created_at, status := t.status,
    outcome := if win then "win" else "loss",
    profit := if win then t.amount * (85/100) else -t.amount }

/-- Models `TradingBot._resolve_trades`: one sweep at time `now`.  Every pending
trade older than 5 seconds is settled: its record is appended to the
history in iteration order, the balance takes its profit, and its id is
collected; afterwards every collected id is deleted from the pending dict. -/
def resolve_trades (now : ℚ) (outcomes : String → Bool) (s : BotState) : BotState :=
  let expired := s.pending_trades.filter fun p => isExpired now p.2
  let resolved_ids := expired.map Prod.fst
  { s with
    trade_history := s.trade_history ++ expired.map fun p => settleTrade outcomes p.1 p.2,
    balance := s.balance + (expired.map fun p => (settleTrade outcomes p.1 p.2).profit).sum,
    pending_trades := s.pending_trades.filter fun p => !decide (p.1 ∈ resolved_ids) }

/- ============================ fixtures ================================= -/

/-- A flat candle (all prices 1) used in the short-window example. -/
def flatCandle : Candle :=
  { asset := "EURUSD_otc", timeframe := 60, timestamp := 0,
    open_ := 1, high := 1, low := 1, close := 1, volume := 100 }

/-- A candle with an isolated high of 2, a swing point of the short-window
example. -/
def peakCandle : Candle :=
  { asset := "EURUSD_otc", timeframe := 60, timestamp := 0,
    open_ := 1, high := 2, low := 1, close := 1, volume := 100 }

/-- A 7-candle window (shorter than 20) with one isolated swing high. -/
def shortWindow : List Candle :=
  [flatCandle, flatCandle, flatCandle, peakCandle, flatCandle, flatCandle, flatCandle]

/-- A bullish candle engulfing `bearCandle`: opens below its close (0.5 < 1)
and closes above its open (3 > 2). -/
def bullCandle : Candle :=
  { asset := "EURUSD_otc", timeframe := 60, timestamp := 60,
    open_ := 1/2, high := 3, low := 1/4, close := 3, volume := 100 }

/-- A bearish candle (close 1 < open 2). -/
def bearCandle : Candle :=
  { asset := "EURUSD_otc", timeframe := 60, timestamp := 0,
    open_ := 2, high := 2, low := 1, close := 1, volume := 100 }

/-- The 25-candle engulfing-scenario window: `bullCandle` at position 0,
`bearCandle` at position 1, 23 flat candles behind them. -/
def engulfWindow : List Candle :=
  bullCandle :: bearCandle :: List.replicate 23 flatCandle

/-- A running, trading bot state with balance 10000 and the default 0.75
confidence threshold. -/
def runningBot : BotState :=
  { is_running := true, is_trading := true, connected := true,
    balance := 10000, min_confidence := 3/4,
    pending_trades := [], trade_history := [],
    loops := [("main", newTask), ("tournament", newTask), ("executor", newTask)] }

/-- A bot whose running flag is false while a task is still registered and
unfinished — the state left behind when `_main_loop` aborts on a failed
connect while the tournament task sleeps. -/
def abortedBot : BotState :=
  { is_running := false, is_trading := false, connected := false,
    balance := 0, min_confidence := 3/4,
    pending_trades := [], trade_history := [],
    loops := [("tournament", newTask)] }

/-- A CALL signal with confidence 0.9. -/
def callSignal : Signal :=
  { direction := Direction.CALL, confidence := 9/10, expiration := 60 }

/-- A pending trade created at time 0. -/
def samplePending : PendingTrade :=
  { asset := "EURUSD_otc", amount := 400, direction := Direction.CALL,
    created_at := 0, status := "pending" }

/-- A running bot holding exactly one pending trade, id "77". -/
def botWithPending : BotState :=
  { is_running := true, is_trading := true, connected := true,
    balance := 10000, min_confidence := 3/4,
    pending_trades := [("77", samplePending)], trade_history := [],
    loops := [] }

/-- A live-mode (non-simulation) client that has not connected yet. -/
def liveClient : ClientState :=
  { simulation_mode := false, demo := true, connected := false, balance := 0 }

/-- Two swing points 0.001 apart, used in the clustering example. -/
def closePointA : LevelPoint := { price := 1, ltype := LType.support, index := 3 }

/-- Second of the two nearby swing points of the clustering example. -/
def closePointB : LevelPoint := { price := 1001/1000, ltype := LType.resistance, index := 4 }

/- ============================ theorems ================================= -/

/-- C1 (counterexample): at balance 10, confidence 0.82, `get_trade_amount`
returns 1, which lies outside the claimed interval
`[min(1, balance), balance * 0.05] = [1, 0.5]` — the interval is empty and
the upper bound is violated. -/
theorem trade_amount_interval_counterexample :
    ¬ (min 1 (10 : ℚ) ≤ get_trade_amount 10 (82/100) ∧
       get_trade_amount 10 (82/100) ≤ 10 * (5/100)) := by
  have h : get_trade_amount 10 (82/100) = 1 := by
    norm_num [get_trade_amount]
  rw [h]
  norm_num

/-- C1 (amended): for every balance and confidence,
`get_trade_amount balance c` lies in `[min 1 balance, max 1 (balance * 0.05)]`;
when the balance is at least 20 the upper bound is the claimed
`balance * 0.05`; and for a fixed balance the amount is monotonically
non-decreasing in the confidence. -/
theorem trade_amount_bounds_and_monotone (balance c₁ c₂ : ℚ) :
    min 1 balance ≤ get_trade_amount balance c₁ ∧
    get_trade_amount balance c₁ ≤ max 1 (balance * (5/100)) ∧
    (20 ≤ balance → get_trade_amount balance c₁ ≤ balance * (5/100)) ∧
    (c₁ ≤ c₂ → get_trade_amount balance c₁ ≤ get_trade_amount balance c₂) := by
  refine ⟨?_, ?_, ?_, ?_⟩
  · exact le_trans (min_le_left 1 balance) (le_max_left _ _)
  · simp only [get_trade_amount]
    exact max_le_max le_rfl (min_le_right _ _)
  · intro h20
    simp only [get_trade_amount]
    refine max_le (by linarith) (min_le_right _ _)
  · intro hc
    simp only [get_trade_amount]
    rcases le_or_lt 0 balance with hb | hb
    · refine max_le_max le_rfl (min_le_min ?_ le_rfl)
      refine mul_le_mul_of_nonneg_left ?_ hb
      split_ifs <;> linarith
    · have hcap : balance * (5/100) < 0 := by linarith
      have h₁ : ∀ p : ℚ, min (balance * p) (balance * (5/100)) ≤ 1 :=
        fun p => le_trans (min_le_right _ _) (by linarith)
      rw [max_eq_left (h₁ _), max_eq_left (h₁ _)]

/-- C1 (witness): at balance 10000 the amended bounds give the claimed
interval [1, 500], and the amount at confidence 0.82 is at most the amount
at confidence 0.9. -/
theorem trade_amount_bounds_and_monotone_witness :
    min 1 (10000 : ℚ) ≤ get_trade_amount 10000 (82/100) ∧
    get_trade_amount 10000 (82/100) ≤ 10000 * (5/100) ∧
    get_trade_amount 10000 (82/100) ≤ get_trade_amount 10000 (9/10) :=
  ⟨(trade_amount_bounds_and_monotone 10000 (82/100) (9/10)).1,
   (trade_amount_bounds_and_monotone 10000 (82/100) (9/10)).2.2.1 (by norm_num),
   (trade_amount_bounds_and_monotone 10000 (82/100) (9/10)).2.2.2 (by norm_num)⟩

/-- C10: the $1 floor is applied after the 5%-of-balance cap: the returned
amount is always at least 1; whenever the balance is below 20 the amount
strictly exceeds 5% of the balance; and for balances below 1 it strictly
exceeds the whole balance. -/
theorem trade_amount_floor_dominates (balance c : ℚ) :
    1 ≤ get_trade_amount balance c ∧
    (balance < 20 → balance * (5/100) < get_trade_amount balance c) ∧
    (balance < 1 → balance < get_trade_amount balance c) := by
  have hfloor : 1 ≤ get_trade_amount balance c := by
    simp only [get_trade_amount]
    exact le_max_left _ _
  refine ⟨hfloor, fun h20 => ?_, fun h1 => ?_⟩
  · have : balance * (5/100) < 1 := by linarith
    linarith
  · linarith

/-- C10 (witness): at balance 0 (below 20 and below 1) the returned amount
is at least 1, above 5% of the balance and above the balance itself. -/
theorem trade_amount_floor_dominates_witness :
    1 ≤ get_trade_amount 0 (9/10) ∧
    (0 : ℚ) * (5/100) < get_trade_amount 0 (9/10) ∧
    (0 : ℚ) < get_trade_amount 0 (9/10) :=
  ⟨(trade_amount_floor_dominates 0 (9/10)).1,
   (trade_amount_floor_dominates 0 (9/10)).2.1 (by norm_num),
   (trade_amount_floor_dominates 0 (9/10)).2.2 (by norm_num)⟩

/-- C7: `generate_signal` always returns a confidence in [0.5, 0.9], and
whenever the normalized magnitude of the combined score is below the 0.65
threshold the returned direction is HOLD. -/
theorem generate_signal_confidence_bounds (candles : List Candle)
    (patterns : List PatternEntry) (indicators : Option Indicators)
    (levels : SRResult) (knowledge : List KnowledgeItem) :
    (1/2 ≤ (generate_signal candles patterns indicators levels knowledge).confidence ∧
     (generate_signal candles patterns indicators levels knowledge).confidence ≤ 9/10) ∧
    (max (1/2) (min (9/10) (|combined_call_score patterns indicators| / 2)) < 65/100 →
      (generate_signal candles patterns indicators levels knowledge).direction
        = Direction.HOLD) := by
  simp only [generate_signal]
  split_ifs with h h2 <;>
    first
      | exact ⟨⟨le_rfl, by norm_num⟩, fun _ => rfl⟩
      | exact ⟨⟨le_max_left _ _, max_le (by norm_num) (min_le_left _ _)⟩,
          fun hlow => absurd hlow h⟩

/-- C7 (witness): with no patterns and no indicators the combined score is
-1, its normalized magnitude 0.5 is below the threshold, and the decision
is HOLD with confidence bounds intact. -/
theorem generate_signal_confidence_bounds_witness :
    (1/2 ≤ (generate_signal [] [] none { support := [], resistance := [] } []).confidence ∧
     (generate_signal [] [] none { support := [], resistance := [] } []).confidence ≤ 9/10) ∧
    (generate_signal [] [] none { support := [], resistance := [] } []).direction
      = Direction.HOLD :=
  ⟨(generate_signal_confidence_bounds [] [] none { support := [], resistance := [] } []).1,
   (generate_signal_confidence_bounds [] [] none { support := [], resistance := [] } []).2
     (by
       have hscore : combined_call_score [] none = -1 := by
         simp [combined_call_score, get_pattern_signal, get_indicator_signal]
         norm_num
       rw [hscore, abs_neg, abs_one]
       norm_num)⟩

/-- C9: a live-mode connect whose venue call raises is caught: it returns
false and leaves the client disconnected rather than crashing; and a false
connect result during `_main_loop` startup reverts the running flag to
false and registers no candle-feed task. -/
theorem connect_failure_aborts_startup (c : ClientState) (s : BotState)
    (hlive : c.simulation_mode = false) :
    (connect c none).2 = false ∧
    (connect c none).1.connected = false ∧
    (main_loop_startup s c none).1.is_running = false ∧
    (main_loop_startup s c none).1.loops = s.loops := by
  refine ⟨?_, ?_, ?_, ?_⟩ <;>
    simp [connect, main_loop_startup, hlive]

/-- C9 (witness): the live client fixture with a failing venue call. -/
theorem connect_failure_aborts_startup_witness :
    (connect liveClient none).2 = false ∧
    (connect liveClient none).1.connected = false ∧
    (main_loop_startup runningBot liveClient none).1.is_running = false ∧
    (main_loop_startup runningBot liveClient none).1.loops = runningBot.loops :=
  connect_failure_aborts_startup liveClient runningBot rfl

/-- C8 (counterexample): `stop` guards on the running flag, not on the task
registry.  In the (reachable) state where `_main_loop` has already cleared
`is_running` after a failed connect while the tournament task is still
registered and unfinished, `stop()` cancels nothing and leaves the registry
non-empty — contradicting the claim for "stop() called while tasks are
registered". -/
theorem stop_not_running_counterexample :
    abortedBot.loops ≠ [] ∧
    (stop abortedBot).1.loops = abortedBot.loops ∧
    (stop abortedBot).2 = [] := by
  refine ⟨by simp [abortedBot], ?_, ?_⟩ <;> simp [stop, abortedBot]

/-- C8 (amended): `stop()` called while the bot is running cancels every
registered not-yet-finished task, empties the task registry and clears the
running flag; `start()` called while the bot is already running is a
no-op. -/
theorem stop_start_lifecycle (s : BotState) :
    (s.is_running = true →
      (stop s).1.is_running = false ∧
      (stop s).1.loops = [] ∧
      (stop s).2 = (s.loops.filter fun p => !p.2.done).map Prod.fst) ∧
    (s.is_running = true → start s = s) := by
  constructor <;> intro h <;> simp [stop, start, h]

/-- C8 (witness): stopping the running three-task fixture cancels exactly
the three task names, empties the registry and clears the flag; starting it
again first is a no-op. -/
theorem stop_start_lifecycle_witness :
    (stop runningBot).1.is_running = false ∧
    (stop runningBot).1.loops = [] ∧
    (stop runningBot).2 = ["main", "tournament", "executor"] ∧
    start runningBot = runningBot := by
  obtain ⟨h1, h2, h3⟩ := (stop_start_lifecycle runningBot).1 rfl
  refine ⟨h1, h2, ?_, (stop_start_lifecycle runningBot).2 rfl⟩
  rw [h3]
  simp [runningBot, newTask]

/-- The gate of `_on_new_candle` rejects: when the condition is false the
state is untouched and `place_trade` is not called. -/
theorem on_candle_decision_noop (s : BotState) (asset : String) (sig : Signal)
    (pr : Option String) (now : ℚ)
    (h : (s.is_trading && tradeGate sig s.min_confidence) = false) :
    on_candle_decision s asset sig pr now = (s, none) := by
  simp [on_candle_decision, h]

/-- A passing gate means the direction is CALL or PUT and the confidence
clears the threshold. -/
theorem tradeGate_true_iff (sig : Signal) (m : ℚ) (h : tradeGate sig m = true) :
    (sig.direction = Direction.CALL ∨ sig.direction = Direction.PUT) ∧
    sig.confidence ≥ m := by
  simp only [tradeGate, Bool.and_eq_true, bne_iff_ne, ne_eq, decide_eq_true_eq] at h
  obtain ⟨⟨hH, hN⟩, hc⟩ := h
  refine ⟨?_, hc⟩
  cases hd : sig.direction
  · exact Or.inl rfl
  · exact Or.inr rfl
  · exact absurd hd hH
  · exact absurd hd hN

/-- C2: a trade is opened (a `place_trade` call is issued or the pending
set changes) only when the decision direction is CALL or PUT and its
confidence is at least the current threshold; `set_min_confidence` clamps
into [0.5, 0.95]; and with the threshold set to 0.95, a decision with
confidence 0.9 opens no trade and leaves the pending set unchanged. -/
theorem confidence_gate_spec :
    (∀ (s : BotState) (asset : String) (sig : Signal) (pr : Option String) (now : ℚ),
      ((on_candle_decision s asset sig pr now).2 ≠ none ∨
       (on_candle_decision s asset sig pr now).1.pending_trades ≠ s.pending_trades) →
      (sig.direction = Direction.CALL ∨ sig.direction = Direction.PUT) ∧
      sig.confidence ≥ s.min_confidence) ∧
    (∀ (s : BotState) (c : ℚ),
      1/2 ≤ (set_min_confidence s c).min_confidence ∧
      (set_min_confidence s c).min_confidence ≤ 95/100) ∧
    (∀ (s : BotState) (asset : String) (sig : Signal) (pr : Option String) (now : ℚ),
      sig.confidence = 9/10 →
      (on_candle_decision (set_min_confidence s (95/100)) asset sig pr now).1.pending_trades
        = s.pending_trades ∧
      (on_candle_decision (set_min_confidence s (95/100)) asset sig pr now).2 = none) := by
  refine ⟨?_, ?_, ?_⟩
  · intro s asset sig pr now hchange
    rcases hb : s.is_trading && tradeGate sig s.min_confidence with _ | _
    · rw [on_candle_decision_noop s asset sig pr now hb] at hchange
      simp at hchange
    · rw [Bool.and_eq_true] at hb
      exact tradeGate_true_iff sig s.min_confidence hb.2
  · intro s c
    constructor
    · exact le_max_left _ _
    · exact max_le (by norm_num) (min_le_left _ _)
  · intro s asset sig pr now hconf
    have hm : (set_min_confidence s (95/100)).min_confidence = 95/100 := by
      simp [set_min_confidence]
      norm_num
    have hgate : tradeGate sig (set_min_confidence s (95/100)).min_confidence = false := by
      simp only [tradeGate, hm, hconf]
      simp
      norm_num
    have hnoop : on_candle_decision (set_min_confidence s (95/100)) asset sig pr now
        = (set_min_confidence s (95/100), none) :=
      on_candle_decision_noop _ asset sig pr now (by simp [hgate])
    rw [hnoop]
    exact ⟨rfl, rfl⟩

/-- C2 (witness): a CALL decision at confidence 0.9 against the running
fixture (threshold 0.75, balance 10000) does issue a `place_trade` call, so
the direction/confidence conclusion of the gate theorem applies; the clamp
holds at a request of 2; and after raising the threshold to 0.95 the same
decision leaves the pending set unchanged and places nothing. -/
theorem confidence_gate_spec_witness :
    ((callSignal.direction = Direction.CALL ∨ callSignal.direction = Direction.PUT) ∧
      callSignal.confidence ≥ runningBot.min_confidence) ∧
    (1/2 ≤ (set_min_confidence runningBot 2).min_confidence ∧
      (set_min_confidence runningBot 2).min_confidence ≤ 95/100) ∧
    ((on_candle_decision (set_min_confidence runningBot (95/100)) "EURUSD_otc" callSignal
        (some "10001") 0).1.pending_trades = runningBot.pending_trades ∧
      (on_candle_decision (set_min_confidence runningBot (95/100)) "EURUSD_otc" callSignal
        (some "10001") 0).2 = none) := by
  refine ⟨?_, confidence_gate_spec.2.1 runningBot 2,
    confidence_gate_spec.2.2 runningBot "EURUSD_otc" callSignal (some "10001") 0 rfl⟩
  apply confidence_gate_spec.1 runningBot "EURUSD_otc" callSignal (some "10001") 0
  left
  have hgate : (runningBot.is_trading && tradeGate callSignal runningBot.min_confidence) = true := by
    unfold tradeGate
    rw [Bool.and_eq_true, Bool.and_eq_true]
    refine ⟨rfl, by decide, ?_⟩
    exact decide_eq_true (by norm_num [callSignal, runningBot])
  have hamt : get_trade_amount runningBot.balance callSignal.confidence = 400 := by
    norm_num [get_trade_amount, runningBot, callSignal]
  have hlt : ¬ ((400 : ℚ) < 1) := by norm_num
  simp [on_candle_decision, hgate, execute_trade, hamt, hlt]

/-- A resolution sweep leaves no expired trade pending, so an immediate
second sweep at the same time with the same outcome oracle finds nothing
to do. -/
theorem resolve_trades_idem (now : ℚ) (o : String → Bool) (s : BotState) :
    resolve_trades now o (resolve_trades now o s) = resolve_trades now o s := by
  set t := resolve_trades now o s with ht
  have hnil : (t.pending_trades.filter fun p => isExpired now p.2) = [] := by
    rw [List.filter_eq_nil_iff]
    intro p hp
    rw [ht] at hp
    simp only [resolve_trades, List.mem_filter] at hp
    obtain ⟨hmem, hnotid⟩ := hp
    intro hexp
    have hin : p.1 ∈ (s.pending_trades.filter fun q => isExpired now q.2).map Prod.fst :=
      List.mem_map_of_mem Prod.fst (List.mem_filter.mpr ⟨hmem, hexp⟩)
    simp only [Bool.not_eq_true', decide_eq_false_iff_not] at hnotid
    exact hnotid hin
  simp only [resolve_trades, hnil, List.map_nil, List.append_nil, List.sum_nil, add_zero,
    List.not_mem_nil, decide_False, Bool.not_false, List.filter_true]

/-- C3: when a resolution sweep settles the (sole) expired pending trade
`(tid, tr)`, afterwards no pending entry carries its id, its settled record
sits in the history exactly once, the balance moved by exactly its profit
(`amount * 0.85` on a win, `-amount` on a loss), and re-running the sweep
changes nothing. -/
theorem resolve_trades_settles_once (now : ℚ) (o : String → Bool) (s : BotState)
    (tid : String) (tr : PendingTrade)
    (hexp : (s.pending_trades.filter fun p => isExpired now p.2) = [(tid, tr)])
    (hnew : settleTrade o tid tr ∉ s.trade_history) :
    (∀ p ∈ (resolve_trades now o s).pending_trades, p.1 ≠ tid) ∧
    (resolve_trades now o s).trade_history.count (settleTrade o tid tr) = 1 ∧
    (resolve_trades now o s).balance = s.balance + (settleTrade o tid tr).profit ∧
    (settleTrade o tid tr).profit
      = (if o tid then tr.amount * (85/100) else -tr.amount) ∧
    resolve_trades now o (resolve_trades now o s) = resolve_trades now o s := by
  refine ⟨?_, ?_, ?_, ?_, resolve_trades_idem now o s⟩
  · intro p hp
    simp only [resolve_trades, hexp, List.mem_filter] at hp
    obtain ⟨hmem, hnotid⟩ := hp
    simp only [List.map_cons, List.map_nil, List.mem_singleton, Bool.not_eq_true',
      decide_eq_false_iff_not] at hnotid
    exact hnotid
  · simp only [resolve_trades, hexp, List.map_cons, List.map_nil, List.count_append]
    rw [List.count_eq_zero.mpr hnew]
    simp
  · simp only [resolve_trades, hexp, List.map_cons, List.map_nil, List.sum_cons, List.sum_nil,
      add_zero]
  · simp [settleTrade]

/-- C3 (witness): the one-pending-trade fixture, swept at time 10 with an
all-win oracle. -/
theorem resolve_trades_settles_once_witness :
    (∀ p ∈ (resolve_trades 10 (fun _ => true) botWithPending).pending_trades, p.1 ≠ "77") ∧
    (resolve_trades 10 (fun _ => true) botWithPending).trade_history.count
      (settleTrade (fun _ => true) "77" samplePending) = 1 ∧
    (resolve_trades 10 (fun _ => true) botWithPending).balance
      = botWithPending.balance + (settleTrade (fun _ => true) "77" samplePending).profit ∧
    (settleTrade (fun _ => true) "77" samplePending).profit
      = (if (fun _ : String => true) "77" then samplePending.amount * (85/100)
         else -samplePending.amount) ∧
    resolve_trades 10 (fun _ => true) (resolve_trades 10 (fun _ => true) botWithPending)
      = resolve_trades 10 (fun _ => true) botWithPending :=
  resolve_trades_settles_once 10 (fun _ => true) botWithPending "77" samplePending
    (by
      have h77 : isExpired 10 samplePending = true := by
        simp [isExpired, samplePending]
        norm_num
      simp [botWithPending, h77])
    (by simp [botWithPending])

/-- C6: for a 25-candle window whose two most recent candles form a
bearish-then-bullish engulfing reversal (candle 1 bearish, candle 0
bullish, candle 0 closing above candle 1's open and opening below candle
1's close), `analyze_candles` returns a Bullish Engulfing match with
signal CALL, strength 0.9, at candle index 0. -/
theorem bullish_engulfing_scenario (c0 c1 : Candle) (rest : List Candle)
    (hlen : rest.length = 23)
    (hbear : is_bearish c1) (hbull : is_bullish c0)
    (hc : c0.close > c1.open_) (ho : c0.open_ < c1.close) :
    ∃ e ∈ analyze_candles (c0 :: c1 :: rest),
      e.pattern = "Bullish Engulfing" ∧ e.signal = Direction.CALL ∧
      e.strength = 9/10 ∧ e.candle_index = 0 := by
  have hlen2 : (c0 :: c1 :: rest).length = 25 := by simp [hlen]
  refine ⟨{ pattern := "Bullish Engulfing", ptype := "reversal", signal := Direction.CALL,
            strength := 9/10, candle_index := 0, timestamp := c0.timestamp,
            price := c0.close }, ?_, rfl, rfl, rfl, rfl⟩
  unfold analyze_candles
  rw [hlen2, if_neg (by norm_num)]
  apply List.mem_flatMap.mpr
  refine ⟨0, by simp, ?_⟩
  simp only [List.getElem?_cons_zero, zero_add, List.getElem?_cons_succ]
  simp only [detect_patterns,
    if_pos (show is_bearish c1 ∧ is_bullish c0 ∧ c0.close > c1.open_ ∧ c0.open_ < c1.close
      from ⟨hbear, hbull, hc, ho⟩)]
  simp

/-- C6 (witness): the concrete 25-candle engulfing window. -/
theorem bullish_engulfing_scenario_witness :
    ∃ e ∈ analyze_candles engulfWindow,
      e.pattern = "Bullish Engulfing" ∧ e.signal = Direction.CALL ∧
      e.strength = 9/10 ∧ e.candle_index = 0 :=
  bullish_engulfing_scenario bullCandle bearCandle (List.replicate 23 flatCandle)
    (by simp)
    (by norm_num [is_bearish, bearCandle])
    (by norm_num [is_bullish, bullCandle])
    (by norm_num [bullCandle, bearCandle])
    (by norm_num [bullCandle, bearCandle])

/-- C4 (amended): below their structural minima the three analysis
functions return their neutral results: fewer than 3 candles gives an empty
pattern list, fewer than 20 candles gives an empty indicator mapping, and
fewer than `sensitivity * 2` candles (6 at the default sensitivity 3) gives
empty support and resistance lists. -/
theorem short_window_neutral_results (candles : List Candle)
    (sensitivity count : Nat) (tolerance : ℚ) :
    (candles.length < 3 → analyze_candles candles = []) ∧
    (candles.length < 20 → calculate_all candles = none) ∧
    (candles.length < sensitivity * 2 →
      find_support_resistance tolerance candles sensitivity count
        = { support := [], resistance := [] }) := by
  refine ⟨fun h => ?_, fun h => ?_, fun h => ?_⟩ <;>
    simp [analyze_candles, calculate_all, find_support_resistance, h]

/-- C4 (witness): a single-candle window is below all three minima. -/
theorem short_window_neutral_results_witness :
    analyze_candles [flatCandle] = [] ∧
    calculate_all [flatCandle] = none ∧
    find_support_resistance (5/10000) [flatCandle] 3 3
      = { support := [], resistance := [] } :=
  ⟨(short_window_neutral_results [flatCandle] 3 3 (5/10000)).1 (by simp),
   (short_window_neutral_results [flatCandle] 3 3 (5/10000)).2.1 (by simp),
   (short_window_neutral_results [flatCandle] 3 3 (5/10000)).2.2 (by simp)⟩

/-- C4 (counterexample): the level detector's guard is
`len < sensitivity * 2`, i.e. 6 at the defaults, not 20: the 7-candle
fixture (shorter than 20) yields a non-empty resistance list instead of the
claimed empty result. -/
theorem short_window_levels_counterexample :
    shortWindow.length < 20 ∧
    find_support_resistance (5/10000) shortWindow
      ≠ { support := [], resistance := [] } := by
  have hres : (find_support_resistance (5/10000) shortWindow).resistance
      = [{ price := 2, ltype := LType.resistance, touches := 1,
           strength := 1/3, distance := 1 }] := by
    norm_num [find_support_resistance, shortWindow, flatCandle, peakCandle, swing_points,
      List.range', List.getD, List.insertionSort, List.orderedInsert, levelLE, distLE,
      buildClusters, clusterLoop, finalizeCluster, clusterType, beq_iff_eq,
      List.filter_cons, List.filter_nil]
    decide
  refine ⟨by simp [shortWindow], fun h => ?_⟩
  rw [h] at hres
  simp at hres

instance : IsTotal LevelPoint levelLE := ⟨fun a b => le_total a.price b.price⟩

instance : IsTrans LevelPoint levelLE := ⟨fun a b c hab hbc => le_trans hab hbc⟩

/-- Every cluster produced by the greedy loop is a chain of consecutive
members less than `tolStar` apart: members are only ever merged through a
neighbour within tolerance. -/
theorem clusterLoop_chain (tolStar : ℚ) :
    ∀ (rest : List LevelPoint) (last : LevelPoint) (cur : List LevelPoint),
      List.Chain' (fun u v => |v.price - u.price| < tolStar) ((last :: cur).reverse) →
      ∀ c ∈ clusterLoop tolStar last cur rest,
        List.Chain' (fun u v => |v.price - u.price| < tolStar) c := by
  intro rest
  induction rest with
  | nil =>
    intro last cur hch c hc
    simp only [clusterLoop, List.mem_singleton] at hc
    exact hc ▸ hch
  | cons x xs ih =>
    intro last cur hch c hc
    simp only [clusterLoop] at hc
    by_cases hx : |x.price - last.price| < tolStar
    · rw [if_pos hx] at hc
      refine ih x (last :: cur) ?_ c hc
      rw [List.reverse_cons, List.chain'_append]
      refine ⟨hch, List.chain'_singleton x, ?_⟩
      intro u hu v hv
      rw [List.getLast?_reverse] at hu
      simp only [List.head?_cons, Option.mem_def, Option.some.injEq] at hu hv
      rw [← hu, ← hv]
      exact hx
    · rw [if_neg hx] at hc
      rcases List.mem_cons.mp hc with hceq | hc2
      · exact hceq ▸ hch
      · exact ih x [] (by simp) c hc2

/-- Two members already inside the current cluster end up together in one
of the emitted clusters. -/
theorem clusterLoop_mem_both (tolStar : ℚ) :
    ∀ (rest : List LevelPoint) (last : LevelPoint) (cur : List LevelPoint) (a b : LevelPoint),
      a ∈ last :: cur → b ∈ last :: cur →
      ∃ c ∈ clusterLoop tolStar last cur rest, a ∈ c ∧ b ∈ c := by
  intro rest
  induction rest with
  | nil =>
    intro last cur a b ha hb
    exact ⟨(last :: cur).reverse, by simp [clusterLoop],
      List.mem_reverse.mpr ha, List.mem_reverse.mpr hb⟩
  | cons x xs ih =>
    intro last cur a b ha hb
    simp only [clusterLoop]
    by_cases hx : |x.price - last.price| < tolStar
    · rw [if_pos hx]
      exact ih x (last :: cur) a b (List.mem_cons_of_mem x ha) (List.mem_cons_of_mem x hb)
    · rw [if_neg hx]
      exact ⟨(last :: cur).reverse, List.mem_cons_self _ _,
        List.mem_reverse.mpr ha, List.mem_reverse.mpr hb⟩

/-- A member `a` of the current cluster and an upcoming point `b` within
`tolStar` above it end up in the same emitted cluster: every point between
them is absorbed before the cluster can break. -/
theorem clusterLoop_mem_close (tolStar : ℚ) :
    ∀ (rest : List LevelPoint) (last : LevelPoint) (cur : List LevelPoint) (a b : LevelPoint),
      List.Sorted levelLE rest →
      (∀ y ∈ rest, last.price ≤ y.price) →
      (∀ y ∈ last :: cur, y.price ≤ last.price) →
      a ∈ last :: cur → b ∈ rest → b.price - a.price < tolStar →
      ∃ c ∈ clusterLoop tolStar last cur rest, a ∈ c ∧ b ∈ c := by
  intro rest
  induction rest with
  | nil =>
    intro last cur a b _ _ _ _ hb _
    exact absurd hb (List.not_mem_nil b)
  | cons x xs ih =>
    intro last cur a b hsort hge hcur ha hb hclose
    have hxlast : last.price ≤ x.price := hge x (List.mem_cons_self x xs)
    have haprice : a.price ≤ last.price := hcur a ha
    simp only [clusterLoop]
    rcases List.mem_cons.mp hb with hbx | hbxs
    · subst hbx
      have hx : |b.price - last.price| < tolStar := by
        rw [abs_of_nonneg (by linarith)]
        linarith
      rw [if_pos hx]
      exact clusterLoop_mem_both tolStar xs b (last :: cur) a b
        (List.mem_cons_of_mem b ha) (List.mem_cons_self b _)
    · by_cases hx : |x.price - last.price| < tolStar
      · rw [if_pos hx]
        refine ih x (last :: cur) a b (List.sorted_cons.mp hsort).2 ?_ ?_
          (List.mem_cons_of_mem x ha) hbxs hclose
        · intro y hy
          exact (List.sorted_cons.mp hsort).1 y hy
        · intro y hy
          rcases List.mem_cons.mp hy with h1 | h2
          · exact h1 ▸ le_rfl
          · exact le_trans (hcur y h2) hxlast
      · exfalso
        have hbx2 : x.price ≤ b.price := (List.sorted_cons.mp hsort).1 b hbxs
        rw [abs_of_nonneg (by linarith)] at hx
        push_neg at hx
        linarith

/-- Any two points within `tolStar` of each other, wherever they stand in
the loop (already clustered or still upcoming), land in one common emitted
cluster. -/
theorem clusterLoop_mem_all (tolStar : ℚ) :
    ∀ (rest : List LevelPoint) (last : LevelPoint) (cur : List LevelPoint) (a b : LevelPoint),
      List.Sorted levelLE rest →
      (∀ y ∈ rest, last.price ≤ y.price) →
      (∀ y ∈ last :: cur, y.price ≤ last.price) →
      a ∈ last :: cur ++ rest → b ∈ last :: cur ++ rest →
      |a.price - b.price| < tolStar →
      ∃ c ∈ clusterLoop tolStar last cur rest, a ∈ c ∧ b ∈ c := by
  intro rest
  induction rest with
  | nil =>
    intro last cur a b _ _ _ ha hb _
    rw [List.append_nil] at ha hb
    exact clusterLoop_mem_both tolStar [] last cur a b ha hb
  | cons x xs ih =>
    intro last cur a b hsort hge hcur ha hb hclose
    have hsx := List.sorted_cons.mp hsort
    have hxlast : last.price ≤ x.price := hge x (List.mem_cons_self x xs)
    have hsplit : ∀ z : LevelPoint, z ∈ last :: cur ++ x :: xs →
        z ∈ last :: cur ∨ z ∈ x :: xs := by
      intro z hz
      rcases List.mem_cons.mp hz with h1 | h2
      · exact Or.inl (h1 ▸ List.mem_cons_self last cur)
      · rcases List.mem_append.mp h2 with h3 | h4
        · exact Or.inl (List.mem_cons_of_mem last h3)
        · exact Or.inr h4
    rcases hsplit a ha with haC | haR
    · rcases hsplit b hb with hbC | hbR
      · exact clusterLoop_mem_both tolStar (x :: xs) last cur a b haC hbC
      · have hstep : b.price - a.price < tolStar := by
          have h1 : a.price ≤ last.price := hcur a haC
          have h2 : last.price ≤ b.price := hge b hbR
          calc b.price - a.price = |a.price - b.price| := by
                rw [abs_sub_comm, abs_of_nonneg (by linarith)]
            _ < tolStar := hclose
        exact clusterLoop_mem_close tolStar (x :: xs) last cur a b hsort hge hcur haC hbR hstep
    · rcases hsplit b hb with hbC | hbR
      · have hstep : a.price - b.price < tolStar := by
          have h1 : b.price ≤ last.price := hcur b hbC
          have h2 : last.price ≤ a.price := hge a haR
          calc a.price - b.price = |a.price - b.price| :=
                (abs_of_nonneg (by linarith)).symm
            _ < tolStar := hclose
        obtain ⟨c, hc, hbc, hac⟩ :=
          clusterLoop_mem_close tolStar (x :: xs) last cur b a hsort hge hcur hbC haR hstep
        exact ⟨c, hc, hac, hbc⟩
      · simp only [clusterLoop]
        by_cases hx : |x.price - last.price| < tolStar
        · rw [if_pos hx]
          refine ih x (last :: cur) a b hsx.2 (fun y hy => hsx.1 y hy) ?_ ?_ ?_ hclose
          · intro y hy
            rcases List.mem_cons.mp hy with h1 | h2
            · exact h1 ▸ le_rfl
            · exact le_trans (hcur y h2) hxlast
          · rcases List.mem_cons.mp haR with h1 | h2
            · exact h1 ▸ List.mem_cons_self x _
            · exact List.mem_cons_of_mem x (List.mem_append_right (last :: cur) h2)
          · rcases List.mem_cons.mp hbR with h1 | h2
            · exact h1 ▸ List.mem_cons_self x _
            · exact List.mem_cons_of_mem x (List.mem_append_right (last :: cur) h2)
        · rw [if_neg hx]
          obtain ⟨c, hc, hac, hbc⟩ :=
            ih x [] a b hsx.2 (fun y hy => hsx.1 y hy)
              (fun y hy => by
                rcases List.mem_cons.mp hy with h1 | h2
                · exact h1 ▸ le_rfl
                · exact absurd h2 (List.not_mem_nil y))
              haR hbR hclose
          exact ⟨c, List.mem_cons_of_mem _ hc, hac, hbc⟩

/-- The two clustering guarantees over any price-sorted input list. -/
theorem buildClusters_spec (tolStar : ℚ) (l : List LevelPoint)
    (hsorted : List.Sorted levelLE l) :
    (∀ a ∈ l, ∀ b ∈ l, |a.price - b.price| < tolStar →
      ∃ c ∈ buildClusters tolStar l, a ∈ c ∧ b ∈ c) ∧
    (∀ c ∈ buildClusters tolStar l,
      List.Chain' (fun u v => |v.price - u.price| < tolStar) c) := by
  cases l with
  | nil =>
    constructor
    · intro a ha
      exact absurd ha (List.not_mem_nil a)
    · intro c hc
      simp [buildClusters] at hc
  | cons x xs =>
    have hsx := List.sorted_cons.mp hsorted
    constructor
    · intro a ha b hb hclose
      simp only [buildClusters]
      exact clusterLoop_mem_all tolStar xs x [] a b hsx.2 (fun y hy => hsx.1 y hy)
        (fun y hy => by
          rcases List.mem_cons.mp hy with h1 | h2
          · exact h1 ▸ le_rfl
          · exact absurd h2 (List.not_mem_nil y))
        ha hb hclose
    · intro c hc
      simp only [buildClusters] at hc
      exact clusterLoop_chain tolStar xs x [] (by simp) c hc

/-- C5: in the level clustering of `find_support_resistance` (the greedy
merge over the price-sorted swing points), any two extrema whose prices
differ by less than the tolerance-scaled threshold always end up in the
same cluster, and every produced cluster is a chain of consecutive members
each less than the threshold apart — so extrema at least the threshold
apart are never merged directly, only transitively through intermediate
extrema. -/
theorem level_clustering_tolerance (tolStar : ℚ) (pts : List LevelPoint) :
    (∀ a ∈ pts, ∀ b ∈ pts, |a.price - b.price| < tolStar →
      ∃ c ∈ buildClusters tolStar (List.insertionSort levelLE pts), a ∈ c ∧ b ∈ c) ∧
    (∀ c ∈ buildClusters tolStar (List.insertionSort levelLE pts),
      List.Chain' (fun u v => |v.price - u.price| < tolStar) c) := by
  have hs := buildClusters_spec tolStar (List.insertionSort levelLE pts)
    (List.sorted_insertionSort levelLE pts)
  have hmem : ∀ z : LevelPoint, z ∈ List.insertionSort levelLE pts ↔ z ∈ pts :=
    fun z => (List.perm_insertionSort levelLE pts).mem_iff
  exact ⟨fun a ha b hb h => hs.1 a ((hmem a).mpr ha) b ((hmem b).mpr hb) h, hs.2⟩

/-- C5 (witness): the two fixture points are 0.001 apart, within the 0.01
threshold, and share a cluster; that concrete cluster is a chain. -/
theorem level_clustering_tolerance_witness :
    (∃ c ∈ buildClusters (1/100) (List.insertionSort levelLE [closePointA, closePointB]),
      closePointA ∈ c ∧ closePointB ∈ c) ∧
    List.Chain' (fun u v => |v.price - u.price| < (1/100 : ℚ))
      [closePointA, closePointB] :=
  ⟨(level_clustering_tolerance (1/100) [closePointA, closePointB]).1
      closePointA (by simp) closePointB (by simp)
      (by norm_num [closePointA, closePointB, abs_sub_lt_iff, abs_lt]),
   (level_clustering_tolerance (1/100) [closePointA, closePointB]).2
      [closePointA, closePointB]
      (by norm_num [List.insertionSort, List.orderedInsert, levelLE, closePointA,
        closePointB, buildClusters, clusterLoop, abs_sub_lt_iff, abs_lt])⟩
